import Mathlib

/-!
# Verification of the SymbolicMath.go expression algebra

Shallow embedding of the symbolic-expression core (`symbolic` and
`smErrors` packages): constants `K`, variables, monomials, polynomials,
variable vectors and variable matrices, together with their `Check`,
`Plus`, `Multiply`, `Comparison`, `Constant`, `Variables`, `Transpose`
and `Dims` operations and the dimension-checking helpers.

Conventions of the embedding:
* Go `float64` scalars are modelled as `ℚ` (the claims under study are
  structural / exact-arithmetic properties, not floating-point ones).
* A Go method that can `panic` is modelled as a function into
  `Except SMError _`; `.error e` means the Go call panics with `e`.
* Go's dynamic `interface{}` operand is modelled by the inductive
  `Operand`, one constructor per concrete Go type that appears in the
  relevant `switch` statements; a `switch` default arm is the
  catch-all `match` arm.
* Go slice semantics are modelled explicitly where they matter:
  `pCopy := p` copies the struct but the contained slice header still
  points at the same backing array, so an element assignment
  `pCopy.Monomials[ii] = x` is visible through `p` as well, while
  `append` never changes what the caller's shorter header can see.
  Operations whose Go body performs such element assignments return
  the value of the receiver after the call alongside the result.
-/

namespace SMGo

/-- `Variable`: identity-only record (`v.ID` is the only field the core
reads; equality of variables is equality of `ID`). -/
structure Variable where
  ID : Nat
deriving DecidableEq

/-- `Monomial ≙ {Coefficient float64, VariableFactors []Variable,
Exponents []int}` as constructed by `K.ToMonomial` and the test
literals. -/
structure Monomial where
  Coefficient : ℚ
  VariableFactors : List Variable
  Exponents : List Int
deriving DecidableEq

/-- `Polynomial ≙ {Monomials []Monomial}`. -/
structure Polynomial where
  Monomials : List Monomial
deriving DecidableEq

/-- `VariableVector ≙ {Elements []Variable}`. -/
structure VariableVector where
  Elements : List Variable
deriving DecidableEq

/-- `VariableMatrix ≙ [][]Variable`. -/
abbrev VariableMatrix := List (List Variable)

/-- `ConstrSense`: one of less-equal, greater-equal, equal. -/
inductive ConstrSense where
  | lessEq : ConstrSense
  | greaterEq : ConstrSense
  | eq : ConstrSense
deriving DecidableEq

/-- Structured error kinds of the `smErrors` package plus the ad-hoc
`fmt.Errorf` panics of the `symbolic` package, distinguished by
constructor so that a proof can tell a `DimensionError` from any other
abort. -/
inductive SMError where
  /-- `smErrors.EmptyMatrixError`. -/
  | emptyMatrix : SMError
  /-- `smErrors.MatrixColumnMismatchError{ExpectedNColumns, ActualNColumns, Row}`. -/
  | matrixColumnMismatch (expected actual row : Nat) : SMError
  /-- `smErrors.DimensionError{Operation, Arg1.Dims(), Arg2.Dims()}`. -/
  | dimension (operation : String) (dims1 dims2 : List Nat) : SMError
  /-- the `fmt.Errorf` raised by `VariableVector.Comparison` when the two
  lengths differ; it carries the sense and both lengths, not an
  operation name. -/
  | comparisonDimension (sense : ConstrSense) (len1 len2 : Nat) : SMError
  /-- `smErrors.UnsupportedInputError{FunctionName}`. -/
  | unsupportedInput (functionName : String) : SMError
  /-- the `fmt.Errorf("Unrecognized expression type …")` panics. -/
  | unrecognizedExpressionType (context : String) : SMError
  /-- the `fmt.Errorf("Unexpected type of right …")` / "not implemented
  yet for type" panics. -/
  | unexpectedType (context : String) : SMError
  /-- a Go runtime "index out of range" panic with the offending index. -/
  | indexOutOfRange (index : Int) : SMError
  /-- arity mismatch of a monomial (exponent count ≠ factor count). -/
  | arityMismatch (numFactors numExponents : Nat) : SMError
  /-- an element error wrapped with the element's coordinates, as in
  `fmt.Errorf("element %v has an issue: …")`. -/
  | elementError (coords : List Nat) (inner : SMError) : SMError
  /-- the `fmt.Errorf("error in second argument to …")` wrapper used by
  the `VariableMatrix` methods around a failing operand check. -/
  | secondArgError (context : String) (inner : SMError) : SMError
  /-- the Go runtime panic from calling a method on the nil interface
  obtained when `e.(Expression)` fails (a bare `float64` does not
  implement `Expression`). -/
  | nilInterfaceCall (context : String) : SMError
  /-- an "empty" error for a vector container with no elements
  (spec §4.1 / §7 `EmptyContainerError`). -/
  | emptyVector : SMError
deriving DecidableEq

/-- The dynamic operand of a Go `interface{}` parameter: one
constructor per concrete type the embedded `switch` statements inspect
(`float64`, `K`, `Variable`, `Monomial`, `Polynomial`, `KVector`,
`VariableVector`, `KMatrix`, `VariableMatrix`). -/
inductive Operand where
  | float (c : ℚ) : Operand
  | k (c : ℚ) : Operand
  | var (v : Variable) : Operand
  | monomial (m : Monomial) : Operand
  | polynomial (p : Polynomial) : Operand
  | kVector (kv : List ℚ) : Operand
  | variableVector (vv : VariableVector) : Operand
  | kMatrix (km : List (List ℚ)) : Operand
  | variableMatrix (vm : VariableMatrix) : Operand
deriving DecidableEq

/-- Constraints: `ScalarConstraint{Left, Right, Sense}` and
`VectorConstraint{LeftHandSide, RightHandSide, Sense}` (both sides kept
as dynamic expressions). -/
inductive Constraint where
  | scalarC (lhs rhs : Operand) (sense : ConstrSense) : Constraint
  | vectorC (lhs rhs : Operand) (sense : ConstrSense) : Constraint
deriving DecidableEq

instance {ε α : Type} [DecidableEq ε] [DecidableEq α] : DecidableEq (Except ε α) := fun x y =>
  match x, y with
  | .ok a, .ok b =>
    if h : a = b then .isTrue (by rw [h])
    else .isFalse (by intro hh; cases hh; exact h rfl)
  | .ok _, .error _ => .isFalse (by intro hh; cases hh)
  | .error _, .ok _ => .isFalse (by intro hh; cases hh)
  | .error e, .error f =>
    if h : e = f then .isTrue (by rw [h])
    else .isFalse (by intro hh; cases hh; exact h rfl)

-- ===============================
-- Dimensions and scalar detection
-- ===============================

/-- `symbolic.IsScalarExpression` (expression.go): true exactly for
`float64`, `K` and `Variable`. -/
def IsScalarExpressionSym : Operand → Bool
  | .float _ => true
  | .k _ => true
  | .var _ => true
  | _ => false

/-- Modelled from the spec: `symbolic.IsVectorExpression` is missing
from the sources; per §2/§4.2 the vector shapes are the vector
container types. -/
def IsVectorExpressionSym : Operand → Bool
  | .kVector _ => true
  | .variableVector _ => true
  | _ => false

/-- Modelled from the spec: `symbolic.IsMatrixExpression` is missing
from the sources; per §2/§4.2 the matrix shapes are the matrix
container types. -/
def IsMatrixExpressionSym : Operand → Bool
  | .kMatrix _ => true
  | .variableMatrix _ => true
  | _ => false

/-- `symbolic.IsExpression` (expression.go): scalar, vector or matrix
expression. -/
def IsExpression (e : Operand) : Bool :=
  IsScalarExpressionSym e || IsVectorExpressionSym e || IsMatrixExpressionSym e

/-- `symbolic.ToExpression` restricted to its observable effect on
dimensions and checks: `float64` converts to `K`, every other
expression type converts to itself. -/
def toExpressionOperand : Operand → Operand
  | .float c => .k c
  | e => e

/-- `Dims()` of each operand: scalars are `[1,1]`, vectors `[n,1]`,
matrices `[rows, cols-of-row-0]`. -/
def Operand.dims : Operand → List Nat
  | .float _ => [1, 1]
  | .k _ => [1, 1]
  | .var _ => [1, 1]
  | .monomial _ => [1, 1]
  | .polynomial _ => [1, 1]
  | .kVector kv => [kv.length, 1]
  | .variableVector vv => [vv.Elements.length, 1]
  | .kMatrix km => [km.length, (km.headD []).length]
  | .variableMatrix vm => [vm.length, (vm.headD []).length]

/-- Modelled from the spec: `smErrors.IsScalarExpression` is missing
from the sources; per §4.2 an operand is scalar for dimension checking
iff its dimensions are 1×1. -/
def isScalarMatrixLike (e : Operand) : Bool :=
  e.dims = [1, 1]

/-- `smErrors.CheckDimensionsInAddition`: dimensions must agree in both
coordinates unless either side is scalar; on failure a
`DimensionError{"Plus", …}`. -/
def CheckDimensionsInAddition (left right : Operand) : Option SMError :=
  let dimsAreMatched :=
    ((left.dims.getD 0 0 = right.dims.getD 0 0) ∧
      (left.dims.getD 1 0 = right.dims.getD 1 0)) ∨
    isScalarMatrixLike left = true ∨ isScalarMatrixLike right = true
  if dimsAreMatched then none
  else some (.dimension "Plus" left.dims right.dims)

/-- `smErrors.CheckDimensionsInMultiplication`: left column count must
equal right row count unless either side is scalar; on failure a
`DimensionError{"Multiply", …}`. -/
def CheckDimensionsInMultiplication (left right : Operand) : Option SMError :=
  let dimsMatch := left.dims.getD 1 0 = right.dims.getD 0 0
  let multiplicationIsAllowed :=
    dimsMatch ∨ isScalarMatrixLike left = true ∨ isScalarMatrixLike right = true
  if multiplicationIsAllowed then none
  else some (.dimension "Multiply" left.dims right.dims)

-- ===============================
-- Checks
-- ===============================

/-- Modelled from the spec: `Variable.Check` is missing from the
sources; a variable is identity-only (§3), so its check always
succeeds. -/
def Variable.CheckV (_v : Variable) : Option SMError :=
  none

/-- Modelled from the spec: `Monomial.Check` is missing from the
sources; per §4.1 a monomial fails its check iff the number of
exponents does not equal the number of variable factors. -/
def Monomial.CheckM (m : Monomial) : Option SMError :=
  if m.Exponents.length ≠ m.VariableFactors.length then
    some (.arityMismatch m.VariableFactors.length m.Exponents.length)
  else
    none

/-- `Polynomial.Check`: returns the first failing monomial's error
unwrapped; an empty monomial list passes vacuously. -/
def Polynomial.CheckP (p : Polynomial) : Option SMError :=
  p.Monomials.findSome? Monomial.CheckM

/-- Helper for `VariableVector.Check`: first failing element's error,
wrapped with its index. -/
def checkElementsFrom (idx : Nat) : List Variable → Option SMError
  | [] => none
  | v :: rest =>
    match v.CheckV with
    | some err => some (.elementError [idx] err)
    | none => checkElementsFrom (idx + 1) rest

/-- `VariableVector.Check`: each element's check is invoked and a
failure is wrapped with the element index; an empty vector passes
vacuously. -/
def VariableVector.CheckVV (vv : VariableVector) : Option SMError :=
  checkElementsFrom 0 vv.Elements

/-- The ragged-row scan shared by the matrix checks, returning the
first row whose length differs from the expected column count. -/
def checkRowsFrom {α : Type} (numCols idx : Nat) : List (List α) → Option SMError
  | [] => none
  | row :: rest =>
    if row.length ≠ numCols then
      some (.matrixColumnMismatch numCols row.length idx)
    else
      checkRowsFrom numCols (idx + 1) rest

/-- Helper for `VariableMatrix.Check`: elementwise variable checks,
wrapped with the (row, column) coordinates. -/
def checkMatrixElementsFrom (ii : Nat) : List (List Variable) → Option SMError
  | [] => none
  | row :: rest =>
    match checkElementsFrom 0 row with
    | some (.elementError [jj] err) => some (.elementError [ii, jj] err)
    | some other => some other
    | none => checkMatrixElementsFrom (ii + 1) rest

/-- `VariableMatrix.Check`: an empty matrix fails with
`EmptyMatrixError`; a row whose length differs from row 0's fails with
`MatrixColumnMismatchError`; then every variable's own check runs,
wrapped with its coordinates. -/
def VariableMatrix.CheckVM (vm : VariableMatrix) : Option SMError :=
  match vm with
  | [] => some .emptyMatrix
  | row0 :: _ =>
    match checkRowsFrom row0.length 0 vm with
    | some err => some err
    | none => checkMatrixElementsFrom 0 vm

/-- Modelled from the spec: `KVector.Check` is missing from the
sources; per §4.1 a vector with no elements fails with an "empty"
error, and constant entries are always valid. -/
def kVectorCheck (kv : List ℚ) : Option SMError :=
  if kv.isEmpty then some .emptyVector else none

/-- Modelled from the spec: `KMatrix.Check` is missing from the
sources; per §4.1 an empty matrix fails with an "empty" error and a
ragged row with a column-mismatch error; constant entries are always
valid. -/
def kMatrixCheck (km : List (List ℚ)) : Option SMError :=
  match km with
  | [] => some .emptyMatrix
  | row0 :: _ => checkRowsFrom row0.length 0 km

/-- `Expression.Check` dispatched over the dynamic operand (constants
are always valid). -/
def Operand.check : Operand → Option SMError
  | .float _ => none
  | .k _ => none
  | .var v => v.CheckV
  | .monomial m => m.CheckM
  | .polynomial p => p.CheckP
  | .kVector kv => kVectorCheck kv
  | .variableVector vv => vv.CheckVV
  | .kMatrix km => kMatrixCheck km
  | .variableMatrix vm => vm.CheckVM

-- ===============================
-- Monomial algebra
-- ===============================

instance : Inhabited Monomial := ⟨⟨0, [], []⟩⟩

/-- `K.ToMonomial` (constant.go): a zero-factor monomial whose
coefficient is the constant's value. -/
def kToMonomial (c : ℚ) : Monomial :=
  { Coefficient := c, VariableFactors := [], Exponents := [] }

/-- Modelled from the spec: `Monomial.IsConstant` is missing from the
sources; per §3 a monomial with an empty factor list represents a pure
constant. -/
def Monomial.IsConstant (m : Monomial) : Bool :=
  m.VariableFactors.isEmpty

/-- Modelled from the spec: `Monomial.IsVariable` is missing from the
sources; per §4.3 the monomial representing a variable has coefficient
1 and that single factor with exponent 1. -/
def Monomial.IsVariable (m : Monomial) (v : Variable) : Bool :=
  m.Coefficient == 1 && m.VariableFactors == [v] && m.Exponents == [1]

/-- Modelled from the spec: `Variable.ToMonomial` is missing from the
sources; per §4.3 a variable promotes to the monomial `1·v¹`. -/
def Variable.ToMonomialV (v : Variable) : Monomial :=
  { Coefficient := 1, VariableFactors := [v], Exponents := [1] }

/-- Modelled from the spec: the factor-merge step of
`Monomial.Multiply` is missing from the sources; per §4.2 the exponents
of shared variables add and new variables are appended. -/
def Monomial.mergeFactor (m : Monomial) (v : Variable) (e : Int) : Monomial :=
  match m.VariableFactors.findIdx? (fun w => w == v) with
  | some i => { m with Exponents := m.Exponents.set i (m.Exponents.getD i 0 + e) }
  | none =>
    { m with VariableFactors := m.VariableFactors ++ [v],
             Exponents := m.Exponents ++ [e] }

/-- Modelled from the spec: `Monomial.Multiply` with a constant is
missing from the sources; per §4.2 the coefficients multiply. -/
def Monomial.MultiplyK (m : Monomial) (c : ℚ) : Monomial :=
  { m with Coefficient := m.Coefficient * c }

/-- Modelled from the spec: `Monomial.Multiply` with a variable is
missing from the sources; per §4.2 a shared variable's exponent grows
by one, a new variable is appended with exponent 1. -/
def Monomial.MultiplyVariable (m : Monomial) (v : Variable) : Monomial :=
  m.mergeFactor v 1

/-- Modelled from the spec: `Monomial.Multiply` with a monomial is
missing from the sources; per §4.2 the coefficients multiply and the
factor lists merge. -/
def Monomial.MultiplyMonomial (m n : Monomial) : Monomial :=
  (List.zip n.VariableFactors n.Exponents).foldl
    (fun acc ve => acc.mergeFactor ve.1 ve.2)
    { m with Coefficient := m.Coefficient * n.Coefficient }

/-- Modelled from the spec: `Variable.Plus` with a constant is missing
from the sources; per §4.2-§4.3 the variable promotes to a single-term
polynomial and the constant appends as a zero-factor monomial, giving
`1·v + c`. -/
def Variable.PlusK (v : Variable) (c : ℚ) : Polynomial :=
  { Monomials := [v.ToMonomialV, kToMonomial c] }

/-- Modelled from the spec: `Variable.Multiply` with a constant is
missing from the sources; per §4.2 scaling a variable yields the
monomial `c·v`. -/
def Variable.MultiplyKV (v : Variable) (c : ℚ) : Monomial :=
  { Coefficient := c, VariableFactors := [v], Exponents := [1] }

-- ===============================
-- Go slice access
-- ===============================

/-- A Go indexed read `l[i]` with an `int` index: in bounds it yields
the element, otherwise the runtime panics with "index out of range". -/
def listGetGo {α : Type} [Inhabited α] (l : List α) (i : Int) : Except SMError α :=
  if 0 ≤ i ∧ i.toNat < l.length then .ok (l.getD i.toNat default)
  else .error (.indexOutOfRange i)

/-- A Go indexed write `l[i] = a` with an `int` index: in bounds it
yields the updated backing array, otherwise the runtime panics. -/
def listSetGo {α : Type} (l : List α) (i : Int) (a : α) : Except SMError (List α) :=
  if 0 ≤ i ∧ i.toNat < l.length then .ok (l.set i.toNat a)
  else .error (.indexOutOfRange i)

/-- The Go `for ii, x := range l` search loop shared by
`ConstantMonomialIndex` and `VariableMonomialIndex`: index of the first
element satisfying the predicate, `-1` if none. -/
def findIdxFrom {α : Type} (pr : α → Bool) (idx : Nat) : List α → Int
  | [] => -1
  | a :: rest => if pr a then (idx : Int) else findIdxFrom pr (idx + 1) rest

-- ===============================
-- Polynomial operations
-- ===============================

/-- The scanning core of `Polynomial.ConstantMonomialIndex` (its
`Check` precondition is run by every caller first): index of the first
constant monomial, `-1` if none. -/
def Polynomial.constantMonomialIndexCore (p : Polynomial) : Int :=
  findIdxFrom Monomial.IsConstant 0 p.Monomials

/-- `Polynomial.ConstantMonomialIndex`: panics on an invalid receiver,
then scans for the first constant monomial. -/
def Polynomial.ConstantMonomialIndex (p : Polynomial) : Except SMError Int :=
  match p.CheckP with
  | some err => .error err
  | none => .ok p.constantMonomialIndexCore

/-- The scanning core of `Polynomial.VariableMonomialIndex`: index of
the first monomial representing the given variable, `-1` if none. -/
def Polynomial.variableMonomialIndexCore (p : Polynomial) (vIn : Variable) : Int :=
  findIdxFrom (fun m => m.IsVariable vIn) 0 p.Monomials

/-- The `case K:` arm of `Polynomial.Plus`. The Go source reads
`if constantIndex != -1 { append K-monomial } else { modify
Monomials[constantIndex] }`, so an existing constant term makes the
method append a second constant monomial, while a missing constant
term makes it index the slice at `-1` and panic. -/
def Polynomial.plusKCase (p : Polynomial) (right : ℚ) : Except SMError Operand :=
  let pCopy := p
  let constantIndex := pCopy.constantMonomialIndexCore
  if constantIndex ≠ -1 then
    .ok (.polynomial { Monomials := pCopy.Monomials ++ [kToMonomial right] })
  else do
    let newMonomial ← listGetGo pCopy.Monomials constantIndex
    let newMonomial := { newMonomial with Coefficient := newMonomial.Coefficient + right }
    let ms ← listSetGo pCopy.Monomials constantIndex newMonomial
    .ok (.polynomial { Monomials := ms })

/-- The `case Variable:` arm of `Polynomial.Plus`. Its body has the
same inverted conditional and, in addition, no `return` statement, so
a completed body still falls through to the closing
"Unexpected type" panic. -/
def Polynomial.plusVariableCase (p : Polynomial) (right : Variable) : Except SMError Operand :=
  let pCopy := p
  let variableIndex := pCopy.variableMonomialIndexCore right
  if variableIndex ≠ -1 then
    let _pAppended : Polynomial :=
      { Monomials := pCopy.Monomials ++ [right.ToMonomialV] }
    .error (.unexpectedType "Polynomial.Plus")
  else do
    let newMonomial ← listGetGo pCopy.Monomials variableIndex
    let newMonomial := { newMonomial with Coefficient := newMonomial.Coefficient + 1 }
    let _ ← listSetGo pCopy.Monomials variableIndex newMonomial
    .error (.unexpectedType "Polynomial.Plus")

/-- `Polynomial.Plus`: check the receiver, check dimensions against an
expression operand, then dispatch. The `float64` arm re-enters through
`p.Plus(K(right))`, whose repeated checks pass identically, so it is
embedded as the `K` arm directly. -/
def Polynomial.Plus (p : Polynomial) (e : Operand) : Except SMError Operand :=
  match p.CheckP with
  | some err => .error err
  | none =>
    match
      (if IsExpression e then
        CheckDimensionsInAddition (.polynomial p) (toExpressionOperand e)
      else none) with
    | some err => .error err
    | none =>
      match e with
      | .float right => p.plusKCase right
      | .k right => p.plusKCase right
      | .var right => p.plusVariableCase right
      | _ => .error (.unexpectedType "Polynomial.Plus")

/-- `Polynomial.Multiply`, together with the value of the receiver
after the call. Go's `pCopy := p` copies only the slice header, so the
loop `pCopy.Monomials[ii] = pCopy.Monomials[ii].Multiply(right)`
writes through the backing array shared with the caller's `p`: on the
scalar arms the receiver afterwards holds the scaled monomials. The
`float64` arm re-enters through `p.Multiply(K(right))`. -/
def Polynomial.MultiplyWithReceiver (p : Polynomial) (e : Operand) :
    Except SMError (Operand × Polynomial) :=
  match p.CheckP with
  | some err => .error err
  | none =>
    match
      (if IsExpression e then
        CheckDimensionsInMultiplication (.polynomial p) (toExpressionOperand e)
      else none) with
    | some err => .error err
    | none =>
      match e with
      | .float right =>
        let q : Polynomial := { Monomials := p.Monomials.map (fun m => m.MultiplyK right) }
        .ok (.polynomial q, q)
      | .k right =>
        let q : Polynomial := { Monomials := p.Monomials.map (fun m => m.MultiplyK right) }
        .ok (.polynomial q, q)
      | .var right =>
        let q : Polynomial :=
          { Monomials := p.Monomials.map (fun m => m.MultiplyVariable right) }
        .ok (.polynomial q, q)
      | .monomial right =>
        let q : Polynomial :=
          { Monomials := p.Monomials.map (fun m => m.MultiplyMonomial right) }
        .ok (.polynomial q, q)
      | _ => .error (.unexpectedType "Polynomial.Multiply")

/-- `Polynomial.Variables`: all factors of all monomials, deduplicated
by `UniqueVars`. -/
def UniqueVars (vars : List Variable) : List Variable :=
  vars.foldl (fun acc v => if v ∈ acc then acc else acc ++ [v]) []

/-- Modelled from the spec: `Monomial.Variables` is missing from the
sources; the variables of a monomial are its factors. -/
def Monomial.VariablesM (m : Monomial) : List Variable :=
  m.VariableFactors

/-- `Polynomial.Variables` (no receiver check in the source). -/
def Polynomial.Variables (p : Polynomial) : List Variable :=
  UniqueVars (p.Monomials.map Monomial.VariablesM).flatten

/-- `Polynomial.Constant`: 0 when no constant monomial exists,
otherwise the coefficient at the first constant monomial's index. -/
def Polynomial.Constant (p : Polynomial) : Except SMError ℚ :=
  match p.CheckP with
  | some err => .error err
  | none =>
    let constantIndex := p.constantMonomialIndexCore
    if constantIndex = -1 then .ok 0
    else do
      let m ← listGetGo p.Monomials constantIndex
      .ok m.Coefficient

-- ===============================
-- K (constant) operations
-- ===============================

/-- The `case K:` arm of `K.Plus` (the `int` and `float64` arms reduce
to it through `c.Plus(K(right))`): the sum of the two constants. -/
def kPlusK (c right : ℚ) : ℚ :=
  c + right

/-- `symbolic.ToScalarExpression`, value component: converts `float64`,
`K` and `Variable`, and yields `K(1.0)` for every other input (whose
accompanying error `K.Comparison` discards). -/
def toScalarExpressionValue : Operand → Operand
  | .float r => .k r
  | .k r => .k r
  | .var v => .var v
  | _ => .k 1

/-- `K.Comparison`: checks an expression operand, then dispatches;
scalar operands form a `ScalarConstraint` through `ToScalarExpression`
(with its error discarded), vector operands broadcast the constant to
a `KVector` of the operand's length on the left-hand side, and any
other operand panics with `UnsupportedInputError`. The `float64` arm
re-enters through `c.Comparison(K(right), sense)`. -/
def kComparison (c : ℚ) (rhsIn : Operand) (sense : ConstrSense) : Except SMError Constraint :=
  match
    (if IsExpression rhsIn then (toExpressionOperand rhsIn).check else none) with
  | some err => .error err
  | none =>
    match rhsIn with
    | .float right => .ok (.scalarC (.k c) (.k right) sense)
    | .k _ => .ok (.scalarC (.k c) (toScalarExpressionValue rhsIn) sense)
    | .var _ => .ok (.scalarC (.k c) (toScalarExpressionValue rhsIn) sense)
    | .monomial _ => .ok (.scalarC (.k c) (toScalarExpressionValue rhsIn) sense)
    | .polynomial _ => .ok (.scalarC (.k c) (toScalarExpressionValue rhsIn) sense)
    | .kVector right =>
      .ok (.vectorC (.kVector (List.replicate right.length c)) (.kVector right) sense)
    | .variableVector right =>
      .ok (.vectorC (.kVector (List.replicate right.Elements.length c))
        (.variableVector right) sense)
    | _ => .error (.unsupportedInput "K.Comparison")

-- ===============================
-- VariableVector operations
-- ===============================

/-- `VariableVector.Len` / `Length`. -/
def VariableVector.Len (vv : VariableVector) : Nat :=
  vv.Elements.length

/-- `VariableVector.Variables`: returns the element slice itself, with
no deduplication. -/
def VariableVector.Variables (vv : VariableVector) : List Variable :=
  vv.Elements

/-- `VariableVector.Constant`: `ZerosVector(vv.Len())`, the all-zeros
vector of the receiver's length (the zero-vector constructor is the
external dense library's). -/
def VariableVector.Constant (vv : VariableVector) : List ℚ :=
  List.replicate vv.Len 0

/-- `VariableVector.Plus`: after the receiver check, the `switch` has
only a `default:` arm, so every operand type panics with the
"Unrecognized expression type … for addition" error; no dimension
check is ever performed. -/
def VariableVector.Plus (vv : VariableVector) (_rightIn : Operand) : Except SMError Operand :=
  match vv.CheckVV with
  | some err => .error err
  | none => .error (.unrecognizedExpressionType "VariableVector.Plus")

/-- `VariableVector.Multiply`: receiver check, then the dimension check
against an expression operand, then a `switch` with only a `default:`
arm that panics with "unexpected type". -/
def VariableVector.Multiply (vv : VariableVector) (rightIn : Operand) : Except SMError Operand :=
  match vv.CheckVV with
  | some err => .error err
  | none =>
    match
      (if IsExpression rightIn then
        CheckDimensionsInMultiplication (.variableVector vv) (toExpressionOperand rightIn)
      else none) with
    | some err => .error err
    | none => .error (.unexpectedType "VariableVector.Multiply")

/-- `VariableVector.Comparison`: a `KVector` or `VariableVector` operand
of equal length yields a `VectorConstraint` with the receiver on the
left; a length mismatch panics with the formatted "must have the same
dimension" error carrying the sense and both lengths; every other
operand type (a scalar included) panics with the "not implemented yet
for type" error. (The `mat.VecDense` arm converts the external dense
vector to `KVector` and re-enters; the external type is outside this
embedding's operand universe.) -/
def VariableVector.Comparison (vv : VariableVector) (rhs : Operand) (sense : ConstrSense) :
    Except SMError Constraint :=
  match rhs with
  | .kVector rhsConverted =>
    if vv.Len ≠ rhsConverted.length then
      .error (.comparisonDimension sense vv.Len rhsConverted.length)
    else
      .ok (.vectorC (.variableVector vv) (.kVector rhsConverted) sense)
  | .variableVector rhsConverted =>
    if vv.Len ≠ rhsConverted.Len then
      .error (.comparisonDimension sense vv.Len rhsConverted.Len)
    else
      .ok (.vectorC (.variableVector vv) (.variableVector rhsConverted) sense)
  | _ => .error (.unexpectedType "VariableVector.Comparison")

/-- `VariableVector.Transpose`: returns the receiver itself (the
transposed wrapper is commented out in the source). -/
def VariableVector.Transpose (vv : VariableVector) : Operand :=
  .variableVector vv

/-- `VariableVector.Dims`: `[Len, 1]`. -/
def VariableVector.Dims (vv : VariableVector) : List Nat :=
  [vv.Len, 1]

-- ===============================
-- VariableMatrix operations
-- ===============================

/-- Which operand types implement the Go `Expression` interface: every
symbolic type does, a bare `float64` does not, so the type assertion
`e.(Expression)` used by the `VariableMatrix` methods yields a nil
interface for it. -/
def implementsExpression : Operand → Bool
  | .float _ => false
  | _ => true

/-- The operand-processing block of `VariableMatrix.Plus`: for an
expression operand, assert `e.(Expression)` (nil-interface panic for a
bare `float64`), run the operand's own check (wrapped as "error in
second argument"), then the addition dimension check. -/
def vmPlusInputCheck (vm : VariableMatrix) (e : Operand) : Option SMError :=
  if IsExpression e then
    if implementsExpression e then
      match e.check with
      | some err => some (.secondArgError "VariableMatrix.Plus" err)
      | none => CheckDimensionsInAddition (.variableMatrix vm) e
    else some (.nilInterfaceCall "VariableMatrix.Plus")
  else none

/-- The `case K:` arm of `VariableMatrix.Plus`: the polynomial matrix
`pmOut` is built entry by entry, but the arm has no `return`
statement, so control falls out of the `switch` into the closing
`UnsupportedInputError` panic. -/
def VariableMatrix.plusKCaseVM (vm : VariableMatrix) (right : ℚ) : Except SMError Operand :=
  let _pmOut : List (List Polynomial) :=
    vm.map (fun vmRow => vmRow.map (fun v => v.PlusK right))
  .error (.unsupportedInput "VariableMatrix.Plus")

/-- `VariableMatrix.Plus`: receiver check, operand processing, then the
dispatch whose `K` arm falls through (see `plusKCaseVM`). The
`float64` arm would re-enter through `vm.Plus(K(right))`, but control
never reaches it: the nil-interface panic fires first. -/
def VariableMatrix.Plus (vm : VariableMatrix) (e : Operand) : Except SMError Operand :=
  match vm.CheckVM with
  | some err => .error err
  | none =>
    match vmPlusInputCheck vm e with
    | some err => .error err
    | none =>
      match e with
      | .float right => vm.plusKCaseVM right
      | .k right => vm.plusKCaseVM right
      | _ => .error (.unsupportedInput "VariableMatrix.Plus")

/-- The operand-processing block of `VariableMatrix.Multiply`,
analogous to `vmPlusInputCheck` with the multiplication dimension
check. -/
def vmMultiplyInputCheck (vm : VariableMatrix) (e : Operand) : Option SMError :=
  if IsExpression e then
    if implementsExpression e then
      match e.check with
      | some err => some (.secondArgError "VariableMatrix.Multiply" err)
      | none => CheckDimensionsInMultiplication (.variableMatrix vm) e
    else some (.nilInterfaceCall "VariableMatrix.Multiply")
  else none

/-- The `case K:` arm of `VariableMatrix.Multiply`: the monomial matrix
`mmOut` is built entry by entry, but the arm has no `return`
statement, so control falls out of the `switch` into the closing
`UnsupportedInputError` panic. -/
def VariableMatrix.multiplyKCaseVM (vm : VariableMatrix) (right : ℚ) : Except SMError Operand :=
  let _mmOut : List (List Monomial) :=
    vm.map (fun vmRow => vmRow.map (fun v => v.MultiplyKV right))
  .error (.unsupportedInput "VariableMatrix.Multiply")

/-- `VariableMatrix.Multiply`: receiver check, operand processing, then
the dispatch whose `K` arm falls through (see `multiplyKCaseVM`). -/
def VariableMatrix.Multiply (vm : VariableMatrix) (e : Operand) : Except SMError Operand :=
  match vm.CheckVM with
  | some err => .error err
  | none =>
    match vmMultiplyInputCheck vm e with
    | some err => .error err
    | none =>
      match e with
      | .float right => vm.multiplyKCaseVM right
      | .k right => vm.multiplyKCaseVM right
      | _ => .error (.unsupportedInput "VariableMatrix.Multiply")

/-- `VariableMatrix.Variables`: receiver check, then all entries in
row-major order, deduplicated by `UniqueVars`. -/
def VariableMatrix.Variables (vm : VariableMatrix) : Except SMError (List Variable) :=
  match vm.CheckVM with
  | some err => .error err
  | none => .ok (UniqueVars vm.flatten)

/-- `VariableMatrix.Dims`: receiver check (through which an invalid
matrix panics), then `[rows, columns-of-row-0]`. -/
def VariableMatrix.Dims (vm : VariableMatrix) : Except SMError (List Nat) :=
  match vm.CheckVM with
  | some err => .error err
  | none => .ok [vm.length, (vm.headD []).length]

/-- `VariableMatrix.Constant`:
`ZerosMatrix(vm.Dims()[0], vm.Dims()[1])` — the all-zeros matrix of
the receiver's dimensions (the zero-matrix constructor is the external
dense library's; `Dims` panics on an invalid receiver). -/
def VariableMatrix.Constant (vm : VariableMatrix) : Except SMError (List (List ℚ)) :=
  match vm.CheckVM with
  | some err => .error err
  | none => .ok (List.replicate vm.length (List.replicate (vm.headD []).length 0))

/-- `true` exactly when the computation aborted with an
`smErrors.DimensionError`. -/
def abortsWithDimension {α : Type} : Except SMError α → Bool
  | .error (.dimension _ _ _) => true
  | _ => false

-- ===============================
-- Helper lemmas
-- ===============================

theorem checkElementsFrom_eq_none : ∀ (i : Nat) (l : List Variable),
    checkElementsFrom i l = none := by
  intro i l
  induction l generalizing i with
  | nil => rfl
  | cons v rest ih => simpa [checkElementsFrom, Variable.CheckV] using ih (i + 1)

theorem variableVector_check_eq_none (vv : VariableVector) : vv.CheckVV = none :=
  checkElementsFrom_eq_none 0 vv.Elements

theorem checkRowsFrom_eq_none {α : Type} (numCols : Nat) :
    ∀ (l : List (List α)) (i : Nat), (∀ row ∈ l, row.length = numCols) →
      checkRowsFrom numCols i l = none := by
  intro l
  induction l with
  | nil => intro i _; rfl
  | cons row rest ih =>
    intro i h
    have hrow : row.length = numCols := h row (List.mem_cons_self _ _)
    simpa [checkRowsFrom, hrow] using ih (i + 1) (fun r hr => h r (List.mem_cons_of_mem _ hr))

theorem checkMatrixElementsFrom_eq_none : ∀ (i : Nat) (l : List (List Variable)),
    checkMatrixElementsFrom i l = none := by
  intro i l
  induction l generalizing i with
  | nil => rfl
  | cons row rest ih =>
    simpa [checkMatrixElementsFrom, checkElementsFrom_eq_none] using ih (i + 1)

theorem toExpressionOperand_dims (r : Operand) :
    (toExpressionOperand r).dims = r.dims := by
  cases r <;> rfl

theorem toExpressionOperand_scalar (r : Operand) :
    isScalarMatrixLike (toExpressionOperand r) = isScalarMatrixLike r := by
  cases r <;> rfl

theorem variableVector_plus_eq (vv : VariableVector) (r : Operand) :
    VariableVector.Plus vv r = .error (.unrecognizedExpressionType "VariableVector.Plus") := by
  unfold VariableVector.Plus
  rw [variableVector_check_eq_none]

theorem findIdxFrom_eq_neg_one {α : Type} (pr : α → Bool) :
    ∀ (l : List α) (i : Nat), (∀ a ∈ l, pr a = false) → findIdxFrom pr i l = -1 := by
  intro l
  induction l with
  | nil => intro i _; rfl
  | cons a rest ih =>
    intro i h
    have ha : pr a = false := h a (List.mem_cons_self _ _)
    simpa [findIdxFrom, ha] using ih (i + 1) (fun x hx => h x (List.mem_cons_of_mem _ hx))

theorem findIdxFrom_eq_of_first {α : Type} [Inhabited α] (pr : α → Bool) :
    ∀ (l : List α) (i j : Nat), j < l.length → pr (l.getD j default) = true →
      (∀ j' < j, pr (l.getD j' default) = false) →
      findIdxFrom pr i l = ((i + j : Nat) : Int) := by
  intro l
  induction l with
  | nil => intro i j hj _ _; exact absurd hj (by simp)
  | cons a rest ih =>
    intro i j hj hpr hbefore
    cases j with
    | zero => simp_all [findIdxFrom]
    | succ j0 =>
      have ha : pr a = false := by
        have := hbefore 0 (Nat.succ_pos _)
        simpa using this
      have hrec := ih (i + 1) j0 (by simpa using hj) (by simpa using hpr)
        (fun j' hj' => by
          have := hbefore (j' + 1) (Nat.succ_lt_succ hj')
          simpa using this)
      simp only [findIdxFrom, ha, if_neg]
      rw [hrec]
      simp
      omega

theorem uniqueVars_foldl_nodup : ∀ (l acc : List Variable), acc.Nodup →
    (l.foldl (fun acc v => if v ∈ acc then acc else acc ++ [v]) acc).Nodup := by
  intro l
  induction l with
  | nil => intro acc h; simpa using h
  | cons v rest ih =>
    intro acc h
    simp only [List.foldl_cons]
    by_cases hv : v ∈ acc
    · simpa [hv] using ih acc h
    · have : (acc ++ [v]).Nodup := by
        simp [List.nodup_append, h, hv]
      simpa [hv] using ih (acc ++ [v]) this

theorem uniqueVars_foldl_mem : ∀ (l acc : List Variable) (x : Variable),
    (x ∈ l.foldl (fun acc v => if v ∈ acc then acc else acc ++ [v]) acc) ↔
      (x ∈ acc ∨ x ∈ l) := by
  intro l
  induction l with
  | nil => intro acc x; simp
  | cons v rest ih =>
    intro acc x
    simp only [List.foldl_cons]
    by_cases hv : v ∈ acc
    · rw [if_pos hv, ih]
      constructor
      · rintro (h | h)
        · exact Or.inl h
        · exact Or.inr (List.mem_cons_of_mem _ h)
      · rintro (h | h)
        · exact Or.inl h
        · rcases List.mem_cons.mp h with h | h
          · exact Or.inl (h ▸ hv)
          · exact Or.inr h
    · rw [if_neg hv, ih]
      constructor
      · rintro (h | h)
        · rcases List.mem_append.mp h with h | h
          · exact Or.inl h
          · exact Or.inr (by simpa using List.mem_cons.mpr (Or.inl (by simpa using h)))
        · exact Or.inr (List.mem_cons_of_mem _ h)
      · rintro (h | h)
        · exact Or.inl (List.mem_append.mpr (Or.inl h))
        · rcases List.mem_cons.mp h with h | h
          · exact Or.inl (List.mem_append.mpr (Or.inr (by simp [h])))
          · exact Or.inr h

theorem uniqueVars_nodup (l : List Variable) : (UniqueVars l).Nodup :=
  uniqueVars_foldl_nodup l [] List.nodup_nil

theorem uniqueVars_mem (l : List Variable) (x : Variable) :
    x ∈ UniqueVars l ↔ x ∈ l := by
  unfold UniqueVars
  rw [uniqueVars_foldl_mem]
  simp

-- ===============================
-- The claims
-- ===============================

/-- Claim C1: the claim states that `Polynomial.Plus` with a scalar
constant merges the constant into an existing zero-factor monomial
(leaving the term count unchanged) and appends a new zero-factor
monomial only when none exists. The code does the opposite: the
conditional on `ConstantMonomialIndex` is inverted, so a polynomial
that already has the constant monomial `3` gains a duplicate constant
monomial `1` (term count grows; coefficients are not summed), and a
polynomial with no constant monomial panics with a Go index-out-of-range
runtime error at `Monomials[-1]` instead of appending. -/
theorem claim_C1_plus_constant_inverted :
    Polynomial.Plus ⟨[kToMonomial 3]⟩ (.k 1) =
      .ok (.polynomial ⟨[kToMonomial 3, kToMonomial 1]⟩) ∧
    Polynomial.Plus ⟨[⟨5, [⟨0⟩], [2]⟩]⟩ (.k 1) =
      .error (.indexOutOfRange (-1)) := by
  decide

/-- Claim C2: the claim states that `e.Plus(0)` is value-equal to `e`
for every valid expression. For the polynomial `1·x₀` (no constant
term), `Plus(0.0)` panics with an index-out-of-range error instead of
returning a value, and for the constant polynomial `3` it returns a
two-term polynomial with an extra `0` monomial rather than the same
monomial list; the scalar constant case `K(5).Plus(0) = 5` does hold. -/
theorem claim_C2_plus_zero_not_identity :
    Polynomial.Plus ⟨[⟨1, [⟨0⟩], [1]⟩]⟩ (.float 0) =
      .error (.indexOutOfRange (-1)) ∧
    Polynomial.Plus ⟨[kToMonomial 3]⟩ (.float 0) =
      .ok (.polynomial ⟨[kToMonomial 3, kToMonomial 0]⟩) ∧
    kPlusK 5 0 = 5 := by
  refine ⟨by decide, by decide, by norm_num [kPlusK]⟩

/-- Claim C3: the claim states that `VariableMatrix.Plus` and
`VariableMatrix.Multiply` with a scalar constant broadcast over the
entries and never abort. In the code both `case K:` arms build the
result matrix but are missing their `return` statement, so control
falls out of the `switch` and both methods always panic with
`UnsupportedInputError` for a `K` operand; a bare `float64` operand
panics even earlier, on the failed `e.(Expression)` type assertion. -/
theorem claim_C3_matrix_scalar_ops_abort :
    VariableMatrix.Plus [[⟨0⟩]] (.k 2) =
      .error (.unsupportedInput "VariableMatrix.Plus") ∧
    VariableMatrix.Multiply [[⟨0⟩]] (.k 2) =
      .error (.unsupportedInput "VariableMatrix.Multiply") ∧
    VariableMatrix.Plus [[⟨0⟩]] (.float 2) =
      .error (.nilInterfaceCall "VariableMatrix.Plus") ∧
    VariableMatrix.Multiply [[⟨0⟩]] (.float 2) =
      .error (.nilInterfaceCall "VariableMatrix.Multiply") := by
  decide

/-- Claim C9: the claim states that `Polynomial.Multiply` leaves the
receiver unchanged. In Go, `pCopy := p` copies only the slice header,
and the loop `pCopy.Monomials[ii] = …` writes through the backing
array shared with the caller's `p`; multiplying the polynomial `1·x₀`
by `K(2)` therefore leaves the receiver holding `2·x₀` — a different
value than before the call. -/
theorem claim_C9_multiply_mutates_receiver :
    Polynomial.MultiplyWithReceiver ⟨[⟨1, [⟨0⟩], [1]⟩]⟩ (.k 2) =
      .ok (.polynomial ⟨[⟨2, [⟨0⟩], [1]⟩]⟩, ⟨[⟨2, [⟨0⟩], [1]⟩]⟩) ∧
    (⟨[⟨2, [⟨0⟩], [1]⟩]⟩ : Polynomial) ≠ (⟨[⟨1, [⟨0⟩], [1]⟩]⟩ : Polynomial) := by
  constructor
  · norm_num [Polynomial.MultiplyWithReceiver, Polynomial.CheckP, Monomial.CheckM,
      IsExpression, IsScalarExpressionSym, IsVectorExpressionSym, IsMatrixExpressionSym,
      toExpressionOperand, CheckDimensionsInMultiplication, isScalarMatrixLike,
      Operand.dims, Monomial.MultiplyK, List.findSome?]
  · intro h
    have := congrArg (fun q => q.Monomials) h
    simp at this

/-- Claim C10: `VariableVector.Transpose` returns the receiver itself,
and its dimensions — before and after — are `[n, 1]`. -/
theorem claim_C10_transpose_is_identity (vv : VariableVector) :
    VariableVector.Transpose vv = .variableVector vv ∧
    (VariableVector.Transpose vv).dims = [vv.Elements.length, 1] ∧
    VariableVector.Dims vv = [vv.Elements.length, 1] :=
  ⟨rfl, rfl, rfl⟩

theorem findSome?_eq_none_of_all_none {α β : Type} (f : α → Option β) :
    ∀ l : List α, (∀ a ∈ l, f a = none) → l.findSome? f = none := by
  intro l
  induction l with
  | nil => intro _; rfl
  | cons a rest ih =>
    intro h
    have ha : f a = none := h a (List.mem_cons_self _ _)
    rw [List.findSome?_cons]
    simpa [ha] using ih (fun x hx => h x (List.mem_cons_of_mem _ hx))

/-- Claim C4 (counterexample): an empty `Polynomial` and an empty
`VariableVector` both pass `Check` — their element loops run zero
times and they return nil — contradicting the claim that every empty
container fails with an "empty" error. -/
theorem claim_C4_counterexample :
    Polynomial.CheckP ⟨[]⟩ = none ∧
    VariableVector.CheckVV ⟨[]⟩ = none := by
  decide

/-- Claim C4 (amended): only `VariableMatrix.Check` rejects an empty
container (with `EmptyMatrixError`); `Polynomial.Check` and
`VariableVector.Check` return nil on empty containers because they
only validate elements; every well-formed container passes its
check. -/
theorem claim_C4_amended_empty_checks (p : Polynomial) (vv : VariableVector)
    (vm : VariableMatrix) :
    Polynomial.CheckP ⟨[]⟩ = none ∧
    VariableVector.CheckVV ⟨[]⟩ = none ∧
    VariableMatrix.CheckVM ([] : VariableMatrix) = some .emptyMatrix ∧
    ((∀ m ∈ p.Monomials, m.Exponents.length = m.VariableFactors.length) →
      p.CheckP = none) ∧
    vv.CheckVV = none ∧
    (vm ≠ [] → (∀ row ∈ vm, row.length = (vm.headD []).length) →
      vm.CheckVM = none) := by
  refine ⟨rfl, rfl, rfl, ?_, variableVector_check_eq_none vv, ?_⟩
  · intro h
    unfold Polynomial.CheckP
    apply findSome?_eq_none_of_all_none
    intro m hm
    simp [Monomial.CheckM, h m hm]
  · intro hne hrect
    cases vm with
    | nil => exact absurd rfl hne
    | cons row0 rest =>
      have h1 : checkRowsFrom row0.length 0 (row0 :: rest) = none :=
        checkRowsFrom_eq_none row0.length (row0 :: rest) 0
          (fun r hr => by simpa using hrect r hr)
      simp [VariableMatrix.CheckVM, h1, checkMatrixElementsFrom_eq_none]

/-- Witness for the amended claim C4 at concrete containers: a
well-formed one-monomial polynomial and a well-formed 2×1 variable
matrix both pass their checks. -/
theorem claim_C4_amended_empty_checks_witness :
    Polynomial.CheckP ⟨[⟨2, [⟨0⟩], [1]⟩]⟩ = none ∧
    VariableMatrix.CheckVM [[⟨0⟩], [⟨1⟩]] = none := by
  have h := claim_C4_amended_empty_checks ⟨[⟨2, [⟨0⟩], [1]⟩]⟩ ⟨[]⟩ [[⟨0⟩], [⟨1⟩]]
  exact ⟨h.2.2.2.1 (by decide), h.2.2.2.2.2 (by decide) (by decide)⟩

/-- Claim C8 (counterexample): `VariableVector.Variables` returns the
element slice with no deduplication, so a vector holding the same
variable twice reports that identity twice. -/
theorem claim_C8_counterexample :
    VariableVector.Variables ⟨[⟨1⟩, ⟨1⟩]⟩ = [⟨1⟩, ⟨1⟩] ∧
    (VariableVector.Variables ⟨[⟨1⟩, ⟨1⟩]⟩).count (⟨1⟩ : Variable) = 2 := by
  decide

/-- Claim C8 (amended): `Polynomial.Variables` and
`VariableMatrix.Variables` return the union of the variable identities
of their terms/entries with no duplicates, but
`VariableVector.Variables` returns the raw element slice, duplicates
included. -/
theorem claim_C8_amended_variables_dedup (p : Polynomial) (vm : VariableMatrix)
    (vv : VariableVector) (hvm : vm.CheckVM = none) :
    (Polynomial.Variables p).Nodup ∧
    (∀ v : Variable, v ∈ Polynomial.Variables p ↔
      ∃ m ∈ p.Monomials, v ∈ m.VariableFactors) ∧
    (∃ l, VariableMatrix.Variables vm = .ok l ∧ l.Nodup ∧
      (∀ v : Variable, v ∈ l ↔ ∃ row ∈ vm, v ∈ row)) ∧
    VariableVector.Variables vv = vv.Elements := by
  refine ⟨uniqueVars_nodup _, ?_, ?_, rfl⟩
  · intro v
    unfold Polynomial.Variables
    rw [uniqueVars_mem]
    simp [Monomial.VariablesM]
  · refine ⟨UniqueVars vm.flatten, ?_, uniqueVars_nodup _, ?_⟩
    · unfold VariableMatrix.Variables
      rw [hvm]
    · intro v
      rw [uniqueVars_mem]
      simp

/-- Witness for the amended claim C8 at a concrete polynomial whose
two terms share their variable, a concrete 1×1 matrix, and a vector
with a duplicated element. -/
theorem claim_C8_amended_variables_dedup_witness :
    (Polynomial.Variables ⟨[⟨1, [⟨0⟩], [1]⟩, ⟨2, [⟨0⟩], [2]⟩]⟩).Nodup ∧
    VariableVector.Variables ⟨[⟨1⟩, ⟨1⟩]⟩ = [⟨1⟩, ⟨1⟩] := by
  have h := claim_C8_amended_variables_dedup
    ⟨[⟨1, [⟨0⟩], [1]⟩, ⟨2, [⟨0⟩], [2]⟩]⟩ [[⟨0⟩]] ⟨[⟨1⟩, ⟨1⟩]⟩ (by decide)
  exact ⟨h.1, h.2.2.2⟩

/-- Claim C6 (counterexample): `VariableVector.Comparison` against a
scalar constant does not broadcast — the scalar hits the default arm
and the method panics with a "not implemented yet for type" error; a
mismatched-length vector comparison panics with a formatted
dimension-mismatch error (carrying the sense and both lengths), not
with an `smErrors.DimensionError`. -/
theorem claim_C6_counterexample :
    VariableVector.Comparison ⟨[⟨1⟩, ⟨2⟩]⟩ (.k 5) .lessEq =
      .error (.unexpectedType "VariableVector.Comparison") ∧
    VariableVector.Comparison ⟨[⟨1⟩, ⟨2⟩]⟩ (.kVector [1, 2, 3]) .lessEq =
      .error (.comparisonDimension .lessEq 2 3) := by
  decide

/-- Claim C6 (amended): the scalar-broadcast direction of `Comparison`
is the one with the scalar receiver — `K.Comparison` against a
length-n vector broadcasts the constant to a length-n `KVector` on its
side of the `VectorConstraint` — while `VariableVector.Comparison`
against a scalar aborts with an unimplemented-type error; comparing
vectors of different lengths aborts with the formatted
dimension-mismatch error carrying the sense and both lengths. -/
theorem claim_C6_amended_comparison_broadcast (c : ℚ) (kv : List ℚ)
    (vv vv2 : VariableVector) (sense : ConstrSense) (hkv : kv ≠ []) :
    kComparison c (.kVector kv) sense =
      .ok (.vectorC (.kVector (List.replicate kv.length c)) (.kVector kv) sense) ∧
    kComparison c (.variableVector vv) sense =
      .ok (.vectorC (.kVector (List.replicate vv.Elements.length c))
        (.variableVector vv) sense) ∧
    VariableVector.Comparison vv (.k c) sense =
      .error (.unexpectedType "VariableVector.Comparison") ∧
    (vv.Len ≠ kv.length →
      VariableVector.Comparison vv (.kVector kv) sense =
        .error (.comparisonDimension sense vv.Len kv.length)) ∧
    (vv.Len ≠ vv2.Len →
      VariableVector.Comparison vv (.variableVector vv2) sense =
        .error (.comparisonDimension sense vv.Len vv2.Len)) := by
  refine ⟨?_, ?_, rfl, ?_, ?_⟩
  · cases kv with
    | nil => exact absurd rfl hkv
    | cons a t => rfl
  · simp [kComparison, IsExpression, IsScalarExpressionSym, IsVectorExpressionSym,
      IsMatrixExpressionSym, toExpressionOperand, Operand.check,
      variableVector_check_eq_none]
  · intro h
    simp [VariableVector.Comparison, h]
  · intro h
    simp [VariableVector.Comparison, h]

/-- Witness for the amended claim C6 at a length-2 variable vector, the
constant 5, and a length-3 constant vector. -/
theorem claim_C6_amended_comparison_broadcast_witness :
    kComparison 5 (.variableVector ⟨[⟨1⟩, ⟨2⟩]⟩) .lessEq =
      .ok (.vectorC (.kVector [5, 5]) (.variableVector ⟨[⟨1⟩, ⟨2⟩]⟩) .lessEq) ∧
    VariableVector.Comparison ⟨[⟨1⟩, ⟨2⟩]⟩ (.kVector [1, 2, 3]) .lessEq =
      .error (.comparisonDimension .lessEq 2 3) := by
  have h := claim_C6_amended_comparison_broadcast 5 [1, 2, 3] ⟨[⟨1⟩, ⟨2⟩]⟩
    ⟨[⟨3⟩]⟩ .lessEq (by decide)
  exact ⟨h.2.1, h.2.2.2.1 (by decide)⟩

/-- Claim C7: `Polynomial.Constant` on a valid polynomial returns the
coefficient of its (first) zero-factor monomial when one exists and 0
otherwise; `VariableVector.Constant` is the all-zeros vector of the
receiver's length; `VariableMatrix.Constant` is the all-zeros matrix
of the receiver's dimensions. -/
theorem claim_C7_constant_queries (p : Polynomial) (vv : VariableVector)
    (vm : VariableMatrix) (hp : p.CheckP = none) (hvm : vm.CheckVM = none) :
    ((∀ m ∈ p.Monomials, m.IsConstant = false) → p.Constant = .ok 0) ∧
    (∀ j : Nat, j < p.Monomials.length →
      (p.Monomials.getD j default).IsConstant = true →
      (∀ i < j, (p.Monomials.getD i default).IsConstant = false) →
      p.Constant = .ok (p.Monomials.getD j default).Coefficient) ∧
    VariableVector.Constant vv = List.replicate vv.Len 0 ∧
    VariableMatrix.Constant vm =
      .ok (List.replicate vm.length (List.replicate (vm.headD []).length 0)) := by
  refine ⟨?_, ?_, rfl, ?_⟩
  · intro h
    have hidx : p.constantMonomialIndexCore = -1 :=
      findIdxFrom_eq_neg_one _ _ 0 h
    simp [Polynomial.Constant, hp, Polynomial.constantMonomialIndexCore] at hidx ⊢
    simp [hidx]
  · intro j hj hc hbefore
    have hidx : p.constantMonomialIndexCore = ((0 + j : Nat) : Int) :=
      findIdxFrom_eq_of_first _ _ 0 j hj hc hbefore
    rw [Nat.zero_add] at hidx
    have hne : ¬(((j : Nat) : Int) = -1) := by omega
    simp [Polynomial.Constant, hp, Polynomial.constantMonomialIndexCore] at hidx ⊢
    simp [hidx, hne, listGetGo, hj]
    rfl
  · simp [VariableMatrix.Constant, hvm]

/-- Witness for claim C7: the polynomial `1·x₀ + 7` has constant 7, the
polynomial `1·x₀` has constant 0, and a 1×1 variable matrix has the
1×1 zero matrix as its constant. -/
theorem claim_C7_constant_queries_witness :
    Polynomial.Constant ⟨[⟨1, [⟨0⟩], [1]⟩, kToMonomial 7]⟩ = .ok 7 ∧
    Polynomial.Constant ⟨[⟨1, [⟨0⟩], [1]⟩]⟩ = .ok 0 ∧
    VariableMatrix.Constant [[⟨0⟩]] = .ok [[0]] := by
  have h1 := claim_C7_constant_queries ⟨[⟨1, [⟨0⟩], [1]⟩, kToMonomial 7]⟩ ⟨[]⟩ [[⟨0⟩]]
    (by decide) (by decide)
  have h2 := claim_C7_constant_queries ⟨[⟨1, [⟨0⟩], [1]⟩]⟩ ⟨[]⟩ [[⟨0⟩]]
    (by decide) (by decide)
  refine ⟨?_, h2.1 (by decide), ?_⟩
  · exact h1.2.1 1 (by decide) (by decide) (by decide)
  · exact h1.2.2.2

theorem checkDimensionsInAddition_eq_none (l rr : Operand)
    (h : (l.dims.getD 0 0 = rr.dims.getD 0 0 ∧ l.dims.getD 1 0 = rr.dims.getD 1 0) ∨
      isScalarMatrixLike l = true ∨ isScalarMatrixLike rr = true) :
    CheckDimensionsInAddition l rr = none := by
  unfold CheckDimensionsInAddition
  rw [if_pos h]

theorem checkDimensionsInAddition_eq_some (l rr : Operand)
    (hl : isScalarMatrixLike l = false) (hrr : isScalarMatrixLike rr = false)
    (hmm : ¬(l.dims.getD 0 0 = rr.dims.getD 0 0 ∧ l.dims.getD 1 0 = rr.dims.getD 1 0)) :
    CheckDimensionsInAddition l rr = some (.dimension "Plus" l.dims rr.dims) := by
  unfold CheckDimensionsInAddition
  rw [if_neg]
  rintro (h | h | h)
  · exact hmm h
  · rw [hl] at h; cases h
  · rw [hrr] at h; cases h

theorem checkDimensionsInMultiplication_eq_none (l rr : Operand)
    (h : l.dims.getD 1 0 = rr.dims.getD 0 0 ∨
      isScalarMatrixLike l = true ∨ isScalarMatrixLike rr = true) :
    CheckDimensionsInMultiplication l rr = none := by
  unfold CheckDimensionsInMultiplication
  rw [if_pos h]

theorem checkDimensionsInMultiplication_eq_some (l rr : Operand)
    (hl : isScalarMatrixLike l = false) (hrr : isScalarMatrixLike rr = false)
    (hmm : l.dims.getD 1 0 ≠ rr.dims.getD 0 0) :
    CheckDimensionsInMultiplication l rr = some (.dimension "Multiply" l.dims rr.dims) := by
  unfold CheckDimensionsInMultiplication
  rw [if_neg]
  rintro (h | h | h)
  · exact hmm h
  · rw [hl] at h; cases h
  · rw [hrr] at h; cases h

theorem nonscalar_operand_facts (r : Operand) (h : isScalarMatrixLike r = false) :
    IsExpression r = true ∧ implementsExpression r = true ∧
    toExpressionOperand r = r := by
  cases r <;> simp_all [isScalarMatrixLike, Operand.dims, IsExpression,
    IsScalarExpressionSym, IsVectorExpressionSym, IsMatrixExpressionSym,
    implementsExpression, toExpressionOperand]

/-- Claim C5 (amended): incompatible valid non-scalar operands make
`VariableMatrix.Plus`, `VariableMatrix.Multiply` and
`VariableVector.Multiply` abort with a `DimensionError` carrying the
operation name and both operand dimension lists, and none of the four
operations raises a `DimensionError` when the shapes are compatible or
an operand is scalar; `VariableVector.Plus`, however, performs no
dimension check at all — it aborts with an unrecognized-expression-type
error for every operand, so it never raises a `DimensionError`. -/
theorem claim_C5_amended_dimension_enforcement (vv : VariableVector) (vm : VariableMatrix)
    (r : Operand) (hvm : vm.CheckVM = none) (hr : r.check = none) :
    (isScalarMatrixLike (.variableMatrix vm) = false → isScalarMatrixLike r = false →
      ¬((Operand.variableMatrix vm).dims.getD 0 0 = r.dims.getD 0 0 ∧
        (Operand.variableMatrix vm).dims.getD 1 0 = r.dims.getD 1 0) →
      VariableMatrix.Plus vm r =
        .error (.dimension "Plus" (Operand.variableMatrix vm).dims r.dims)) ∧
    (isScalarMatrixLike (.variableMatrix vm) = false → isScalarMatrixLike r = false →
      (Operand.variableMatrix vm).dims.getD 1 0 ≠ r.dims.getD 0 0 →
      VariableMatrix.Multiply vm r =
        .error (.dimension "Multiply" (Operand.variableMatrix vm).dims r.dims)) ∧
    (isScalarMatrixLike (.variableVector vv) = false → isScalarMatrixLike r = false →
      (Operand.variableVector vv).dims.getD 1 0 ≠ r.dims.getD 0 0 →
      VariableVector.Multiply vv r =
        .error (.dimension "Multiply" (Operand.variableVector vv).dims r.dims)) ∧
    abortsWithDimension (VariableVector.Plus vv r) = false ∧
    (((Operand.variableMatrix vm).dims.getD 0 0 = r.dims.getD 0 0 ∧
        (Operand.variableMatrix vm).dims.getD 1 0 = r.dims.getD 1 0) ∨
      isScalarMatrixLike (.variableMatrix vm) = true ∨ isScalarMatrixLike r = true →
      abortsWithDimension (VariableMatrix.Plus vm r) = false) ∧
    ((Operand.variableMatrix vm).dims.getD 1 0 = r.dims.getD 0 0 ∨
      isScalarMatrixLike (.variableMatrix vm) = true ∨ isScalarMatrixLike r = true →
      abortsWithDimension (VariableMatrix.Multiply vm r) = false) ∧
    ((Operand.variableVector vv).dims.getD 1 0 = r.dims.getD 0 0 ∨
      isScalarMatrixLike (.variableVector vv) = true ∨ isScalarMatrixLike r = true →
      abortsWithDimension (VariableVector.Multiply vv r) = false) := by
  refine ⟨?_, ?_, ?_, ?_, ?_, ?_, ?_⟩
  · intro hs1 hs2 hmm
    obtain ⟨hexp, himp, _⟩ := nonscalar_operand_facts r hs2
    have hdim := checkDimensionsInAddition_eq_some (.variableMatrix vm) r hs1 hs2 hmm
    simp [VariableMatrix.Plus, hvm, vmPlusInputCheck, hexp, himp, hr, hdim]
  · intro hs1 hs2 hmm
    obtain ⟨hexp, himp, _⟩ := nonscalar_operand_facts r hs2
    have hdim := checkDimensionsInMultiplication_eq_some (.variableMatrix vm) r hs1 hs2 hmm
    simp [VariableMatrix.Multiply, hvm, vmMultiplyInputCheck, hexp, himp, hr, hdim]
  · intro hs1 hs2 hmm
    obtain ⟨hexp, _, hto⟩ := nonscalar_operand_facts r hs2
    have hdim := checkDimensionsInMultiplication_eq_some (.variableVector vv) r hs1 hs2 hmm
    simp [VariableVector.Multiply, variableVector_check_eq_none, hexp, hto, hdim]
  · rw [variableVector_plus_eq]
    rfl
  · intro hcompat
    have hnone := checkDimensionsInAddition_eq_none (.variableMatrix vm) r hcompat
    cases r <;>
      simp_all [VariableMatrix.Plus, vmPlusInputCheck, Operand.check,
        VariableMatrix.plusKCaseVM, abortsWithDimension, implementsExpression,
        IsExpression, IsScalarExpressionSym, IsVectorExpressionSym, IsMatrixExpressionSym]
  · intro hcompat
    have hnone := checkDimensionsInMultiplication_eq_none (.variableMatrix vm) r hcompat
    cases r <;>
      simp_all [VariableMatrix.Multiply, vmMultiplyInputCheck, Operand.check,
        VariableMatrix.multiplyKCaseVM, abortsWithDimension, implementsExpression,
        IsExpression, IsScalarExpressionSym, IsVectorExpressionSym, IsMatrixExpressionSym]
  · intro hcompat
    have hnone := checkDimensionsInMultiplication_eq_none (.variableVector vv)
      (toExpressionOperand r)
      (by rwa [toExpressionOperand_dims, toExpressionOperand_scalar])
    cases r <;>
      simp_all [VariableVector.Multiply, variableVector_check_eq_none, Operand.check,
        abortsWithDimension, IsExpression, IsScalarExpressionSym,
        IsVectorExpressionSym, IsMatrixExpressionSym, toExpressionOperand]

/-- Claim C5 (counterexample): adding a length-3 constant vector to a
length-2 variable vector — valid non-scalar containers of incompatible
shape — aborts with the "Unrecognized expression type" error of
`VariableVector.Plus`, not with a `DimensionError`. -/
theorem claim_C5_counterexample :
    VariableVector.Plus ⟨[⟨1⟩, ⟨2⟩]⟩ (.kVector [1, 2, 3]) =
      .error (.unrecognizedExpressionType "VariableVector.Plus") ∧
    abortsWithDimension (VariableVector.Plus ⟨[⟨1⟩, ⟨2⟩]⟩ (.kVector [1, 2, 3])) = false := by
  decide

/-- Witness for the amended claim C5 at a 2×1 variable matrix, a
length-2 variable vector, a length-3 constant vector, and the scalar
constant 2. -/
theorem claim_C5_amended_dimension_enforcement_witness :
    VariableMatrix.Plus [[⟨0⟩], [⟨1⟩]] (.kVector [1, 2, 3]) =
      .error (.dimension "Plus" [2, 1] [3, 1]) ∧
    VariableVector.Multiply ⟨[⟨0⟩, ⟨1⟩]⟩ (.kVector [1, 2, 3]) =
      .error (.dimension "Multiply" [2, 1] [3, 1]) ∧
    abortsWithDimension (VariableMatrix.Plus [[⟨0⟩], [⟨1⟩]] (.k 2)) = false := by
  have h := claim_C5_amended_dimension_enforcement ⟨[⟨0⟩, ⟨1⟩]⟩ [[⟨0⟩], [⟨1⟩]]
    (.kVector [1, 2, 3]) (by decide) (by decide)
  have h2 := claim_C5_amended_dimension_enforcement ⟨[⟨0⟩, ⟨1⟩]⟩ [[⟨0⟩], [⟨1⟩]]
    (.k 2) (by decide) (by decide)
  refine ⟨?_, ?_, ?_⟩
  · exact h.1 (by decide) (by decide) (by decide)
  · exact h.2.2.1 (by decide) (by decide) (by decide)
  · exact h2.2.2.2.2.1 (Or.inr (Or.inr (by decide)))

end SMGo
